import Mathlib

/-!
Verification of the industry-calculation core of an EVE Online tracker
(`src/lib/blueprints.ts`).  Numbers are modelled as exact rationals; the
JavaScript `Math.round` is `fun x => ⌊x + 1/2⌋`, `Math.ceil` is `Int.ceil`.
All reference data (blueprints, inventory types, bonus tables) is a
parameter of the embedding, mirroring the JSON tables the module imports.
-/

namespace EveTracker

/-- Rounding to two decimal places with ties going up, computed the way the
source does it via `Math.round(x * 100) / 100`. -/
def round2 (x : ℚ) : ℚ := (⌊x * 100 + 1/2⌋ : ℤ) / 100

/-- Adjusted material quantity, from `src/lib/blueprints.ts`:
`max(runs, ceil(round(baseQuantity * runs * (1 - totalMe), 2)))`. -/
def calculateMaterialQuantity (baseQuantity runs blueprintMe structureMeBonus
    rigMeBonus securityMultiplier : ℚ) : ℚ :=
  let totalMeReduction := blueprintMe / 100 + structureMeBonus + rigMeBonus * securityMultiplier
  let rawQuantity := baseQuantity * runs * (1 - totalMeReduction)
  let rounded := round2 rawQuantity
  let adjusted : ℚ := (⌈rounded⌉ : ℤ)
  max runs adjusted

/-- Adjusted job time, from `src/lib/blueprints.ts`:
`ceil(baseTime * runs * (1 - min(totalTe, 0.9)))`. -/
def calculateJobTime (baseTime runs blueprintTe structureTeBonus
    rigTeBonus securityMultiplier : ℚ) : ℚ :=
  let totalTeReduction := blueprintTe / 100 + structureTeBonus + rigTeBonus * securityMultiplier
  ((⌈baseTime * runs * (1 - min totalTeReduction (9/10))⌉ : ℤ) : ℚ)

/-- One material line of a blueprint, mirroring `BlueprintMaterial`. -/
structure BlueprintMaterial where
  typeId : Nat
  quantity : ℚ
  deriving Repr, DecidableEq

/-- A blueprint record, mirroring `BlueprintData`. -/
structure BlueprintData where
  blueprintTypeId : Nat
  blueprintName : String
  productTypeId : Nat
  productName : String
  activityId : Nat
  time : ℚ
  materials : List BlueprintMaterial
  producedQuantity : ℚ
  deriving Repr, DecidableEq

/-- Inventory type record, mirroring `TypeInfo`. -/
structure TypeInfo where
  name : String
  groupId : Option Nat
  volume : ℚ
  deriving Repr, DecidableEq

/-- Structure bonus record of the source. -/
structure StructureBonus where
  meBonus : ℚ
  teBonus : ℚ
  jobCostBonus : ℚ
  deriving Repr, DecidableEq

/-- Rig bonus record of the source. -/
structure RigBonus where
  meBonus : ℚ
  teBonus : ℚ
  deriving Repr, DecidableEq

/-- Settings record of the source; `runs` is runs per BPC and `quantity` the number of
BPCs, exactly as in the source. -/
structure IndustrySettings where
  blueprintMe : ℚ
  blueprintTe : ℚ
  runs : ℚ
  quantity : ℚ
  systemCostIndex : ℚ
  facilityTax : ℚ
  structureBonus : StructureBonus
  rigBonus : RigBonus
  securityMultiplier : ℚ
  componentMe : ℚ
  componentTe : ℚ
  deriving Repr, DecidableEq

/-- Material requirement record of the source. -/
structure MaterialRequirement where
  typeId : Nat
  name : String
  baseQuantity : ℚ
  adjustedQuantity : ℚ
  volume : ℚ
  groupName : Option String
  isRawMaterial : Bool
  deriving Repr, DecidableEq

/-- Build step record of the source. -/
structure BuildStep where
  blueprintTypeId : Nat
  blueprintName : String
  productTypeId : Nat
  productName : String
  runs : ℚ
  producedQuantity : ℚ
  excessQuantity : ℚ
  time : ℚ
  jobCost : ℚ
  materials : List MaterialRequirement
  deriving Repr, DecidableEq

/-- One entry of the `excessMaterials` output array. -/
structure ExcessMaterial where
  typeId : Nat
  name : String
  quantity : ℚ
  volume : ℚ
  deriving Repr, DecidableEq

structure CalculationResult where
  targetBlueprint : BlueprintData
  rawMaterials : List MaterialRequirement
  buildSteps : List BuildStep
  totalTime : ℚ
  totalJobCost : ℚ
  excessMaterials : List ExcessMaterial
  deriving Repr, DecidableEq

/-- The reference-data tables the module imports from JSON, as
insertion-ordered association lists. -/
structure Env where
  blueprints : List (Nat × BlueprintData)
  blueprintsByProduct : List (Nat × Nat)
  invTypes : List (Nat × TypeInfo)
  invGroups : List (Nat × String)
  deriving Repr, DecidableEq

def ACTIVITY_MANUFACTURING : Nat := 1
def ACTIVITY_REACTION : Nat := 11

/-- Lookup of `getBlueprint`. -/
def getBlueprint (env : Env) (blueprintTypeId : Nat) : Option BlueprintData :=
  env.blueprints.lookup blueprintTypeId

/-- Lookup of `getBlueprintByProduct`; a stored id of `0` is falsy in the source and
yields `null` there, hence the explicit test. -/
def getBlueprintByProduct (env : Env) (productTypeId : Nat) : Option BlueprintData :=
  match env.blueprintsByProduct.lookup productTypeId with
  | none => none
  | some blueprintId => if blueprintId = 0 then none else getBlueprint env blueprintId

/-- Lookup of `getTypeInfo`. -/
def getTypeInfo (env : Env) (typeId : Nat) : Option TypeInfo :=
  env.invTypes.lookup typeId

/-- Lookup of `getTypeName`, with the unknown-id fallback string; an empty
stored name is falsy in the source and also falls back. -/
def getTypeName (env : Env) (typeId : Nat) : String :=
  match getTypeInfo env typeId with
  | some info =>
    if info.name = "" then "Unknown (" ++ toString typeId ++ ")" else info.name
  | none => "Unknown (" ++ toString typeId ++ ")"

/-- Lookup of `getGroupName`; empty strings are falsy in the source so an empty group
name also degrades to `null`. -/
def getGroupName (env : Env) (typeId : Nat) : Option String :=
  match getTypeInfo env typeId with
  | none => none
  | some info =>
    match info.groupId with
    | none => none
    | some gid =>
      match env.invGroups.lookup gid with
      | none => none
      | some gname => if gname = "" then none else some gname

/-- Predicate `canBeBuilt`: true iff an entry exists in the product index. -/
def canBeBuilt (env : Env) (typeId : Nat) : Bool :=
  (env.blueprintsByProduct.lookup typeId).isSome

/-- Insertion-ordered association-list update: replace the value at an
existing key in place, or append a fresh entry at the end, exactly the
semantics of `Map.set` in JavaScript. -/
def updateMap {β : Type} (k : Nat) (v : β) : List (Nat × β) → List (Nat × β)
  | [] => [(k, v)]
  | (k2, v2) :: rest => if k2 = k then (k, v) :: rest else (k2, v2) :: updateMap k v rest

/-- Map read with default `0`, the semantics of `map.get(k) || 0`. -/
def getEntry (m : List (Nat × ℚ)) (k : Nat) : ℚ :=
  (m.lookup k).getD 0

/-- The three mutable accumulators threaded through
`calculateRecursiveBuild`: the raw-material map, the build-step list and the
excess tracker. -/
structure EngineState where
  rawMaterials : List (Nat × MaterialRequirement)
  buildSteps : List BuildStep
  excessTracker : List (Nat × ℚ)
  deriving Repr, DecidableEq

/-- State of the per-blueprint loop: the shared engine state plus the
`stepMaterials` array being collected for the current step. -/
structure StepAcc where
  st : EngineState
  stepMaterials : List MaterialRequirement
  deriving Repr, DecidableEq

/-- The raw-material branch of the loop body: merge the requirement into the
`rawMaterials` accumulator, adding quantities and recomputing the volume
when the type is already present. -/
def mergeRaw (env : Env) (st : EngineState) (mat : BlueprintMaterial) (runs : ℚ)
    (adjustedQty : ℚ) (materialReq : MaterialRequirement) : EngineState :=
  match st.rawMaterials.lookup mat.typeId with
  | some existing =>
    let updated : MaterialRequirement :=
      { existing with
        adjustedQuantity := existing.adjustedQuantity + adjustedQty
        baseQuantity := existing.baseQuantity + mat.quantity * runs
        volume := (match getTypeInfo env mat.typeId with
          | some info => info.volume
          | none => 0) * (existing.adjustedQuantity + adjustedQty) }
    { st with rawMaterials := updateMap mat.typeId updated st.rawMaterials }
  | none => { st with rawMaterials := updateMap mat.typeId materialReq st.rawMaterials }

/-- The material-requirement record built at the top of the loop body for
one material line: name, base and adjusted quantities, volume, group and the
`canBeBuilt`-derived flag. -/
def mkMaterialReq (env : Env) (settings : IndustrySettings) (runs me : ℚ)
    (mat : BlueprintMaterial) : MaterialRequirement :=
  let adjustedQty := calculateMaterialQuantity mat.quantity runs me
    settings.structureBonus.meBonus settings.rigBonus.meBonus settings.securityMultiplier
  let typeInfo := getTypeInfo env mat.typeId
  { typeId := mat.typeId
    name := getTypeName env mat.typeId
    baseQuantity := mat.quantity * runs
    adjustedQuantity := adjustedQty
    volume := (match typeInfo with | some info => info.volume | none => 0) * adjustedQty
    groupName := getGroupName env mat.typeId
    isRawMaterial := !(canBeBuilt env mat.typeId) }

/-- Loop body of `processBlueprintRecursive` for one material line.  The
recursive descent into a component blueprint is abstracted as the
continuation `recurse`, which the engine instantiates with the recursive
call; a material that is not recursed into is merged into `rawMaterials`. -/
def processMaterial (env : Env) (settings : IndustrySettings) (topActivityId : Nat)
    (recurse : BlueprintData → ℚ → EngineState → EngineState)
    (runs me : ℚ) (mat : BlueprintMaterial) (acc : StepAcc) : StepAcc :=
  let adjustedQty := calculateMaterialQuantity mat.quantity runs me
    settings.structureBonus.meBonus settings.rigBonus.meBonus settings.securityMultiplier
  let materialReq : MaterialRequirement := mkMaterialReq env settings runs me mat
  let stepMaterials := acc.stepMaterials ++ [materialReq]
  let componentBp := getBlueprintByProduct env mat.typeId
  let isTopLevelReaction := topActivityId = ACTIVITY_REACTION
  match componentBp with
  | some cbp =>
    let isComponentReaction := cbp.activityId = ACTIVITY_REACTION
    if (isTopLevelReaction ∧ isComponentReaction) ∨
        (¬ isTopLevelReaction ∧ ¬ isComponentReaction) then
      let excess := getEntry acc.st.excessTracker mat.typeId
      let consumed :=
        if 0 < excess then
          let used := min excess adjustedQty
          (adjustedQty - used, updateMap mat.typeId (excess - used) acc.st.excessTracker)
        else (adjustedQty, acc.st.excessTracker)
      let needed := consumed.1
      let tracker1 := consumed.2
      if 0 < needed then
        let componentRuns : ℚ := ((⌈needed / cbp.producedQuantity⌉ : ℤ) : ℚ)
        let produced := componentRuns * cbp.producedQuantity
        let newExcess := produced - needed
        let tracker2 :=
          if 0 < newExcess then
            updateMap mat.typeId (getEntry tracker1 mat.typeId + newExcess) tracker1
          else tracker1
        let st2 := recurse cbp componentRuns { acc.st with excessTracker := tracker2 }
        { st := st2, stepMaterials := stepMaterials }
      else
        { st := { acc.st with excessTracker := tracker1 }, stepMaterials := stepMaterials }
    else
      { st := mergeRaw env acc.st mat runs adjustedQty materialReq
        stepMaterials := stepMaterials }
  | none =>
    { st := mergeRaw env acc.st mat runs adjustedQty materialReq
      stepMaterials := stepMaterials }

/-- Recursive expansion of one blueprint: process every material line,
compute the step's job time and job cost, and prepend the build step.
`fuel` bounds the recursion depth (the source data is assumed acyclic; out
of fuel the state is returned unchanged). -/
def processBlueprintRecursive (env : Env) (settings : IndustrySettings)
    (topActivityId : Nat) (adjustedPrices : List (Nat × ℚ)) :
    Nat → BlueprintData → ℚ → Bool → ℚ → ℚ → EngineState → EngineState
  | 0, _, _, _, _, _, st => st
  | fuel + 1, bp, runs, isTopLevel, me, te, st =>
    let acc := bp.materials.foldl
      (fun a mat =>
        processMaterial env settings topActivityId
          (fun cbp componentRuns s =>
            processBlueprintRecursive env settings topActivityId adjustedPrices fuel
              cbp componentRuns false settings.componentMe settings.componentTe s)
          runs me mat a)
      { st := st, stepMaterials := [] }
    let jobTime := calculateJobTime bp.time runs te settings.structureBonus.teBonus
      settings.rigBonus.teBonus settings.securityMultiplier
    let baseJobCost := acc.stepMaterials.foldl
      (fun sum m => sum + ((adjustedPrices.lookup m.typeId).getD 0) * m.adjustedQuantity) 0
    let jobCost := baseJobCost * settings.systemCostIndex * (2/100) * runs *
      (1 - settings.structureBonus.jobCostBonus) * (1 + settings.facilityTax)
    let totalProduced := runs * bp.producedQuantity
    let excessProduced := if isTopLevel then 0 else getEntry acc.st.excessTracker bp.productTypeId
    let step : BuildStep :=
      { blueprintTypeId := bp.blueprintTypeId
        blueprintName := bp.blueprintName
        productTypeId := bp.productTypeId
        productName := bp.productName
        runs := runs
        producedQuantity := totalProduced
        excessQuantity := excessProduced
        time := jobTime
        jobCost := jobCost
        materials := acc.stepMaterials }
    { acc.st with buildSteps := step :: acc.st.buildSteps }

/-- Batch post-pass on one material requirement: quantities and volume are
multiplied by the number of BPCs. -/
def scaleRequirement (n : ℚ) (m : MaterialRequirement) : MaterialRequirement :=
  { m with
    baseQuantity := m.baseQuantity * n
    adjustedQuantity := m.adjustedQuantity * n
    volume := m.volume * n }

/-- Batch post-pass on one build step. -/
def scaleStep (n : ℚ) (s : BuildStep) : BuildStep :=
  { s with
    runs := s.runs * n
    producedQuantity := s.producedQuantity * n
    excessQuantity := s.excessQuantity * n
    time := s.time * n
    jobCost := s.jobCost * n
    materials := s.materials.map (scaleRequirement n) }

/-- The source scales the first build step whose blueprint id equals the
target's (found with `Array.find`) and then every step with a different id;
this helper is the first half. -/
def scaleFirstMatching (target : Nat) (n : ℚ) : List BuildStep → List BuildStep
  | [] => []
  | s :: rest =>
    if s.blueprintTypeId = target then scaleStep n s :: rest
    else s :: scaleFirstMatching target n rest

/-- Entry point `calculateRecursiveBuild`; `none` models the thrown
blueprint-not-found error. -/
def calculateRecursiveBuild (env : Env) (fuel : Nat) (blueprintTypeId : Nat)
    (settings : IndustrySettings) (adjustedPrices : List (Nat × ℚ)) :
    Option CalculationResult :=
  match getBlueprint env blueprintTypeId with
  | none => none
  | some blueprint =>
    let runsPerBpc := settings.runs
    let numberOfBpcs := settings.quantity
    let st0 : EngineState := { rawMaterials := [], buildSteps := [], excessTracker := [] }
    let st1 := processBlueprintRecursive env settings blueprint.activityId adjustedPrices
      fuel blueprint runsPerBpc true settings.blueprintMe settings.blueprintTe st0
    let st2 :=
      if 1 < numberOfBpcs then
        { rawMaterials :=
            st1.rawMaterials.map (fun p => (p.1, scaleRequirement numberOfBpcs p.2))
          buildSteps :=
            (scaleFirstMatching blueprint.blueprintTypeId numberOfBpcs st1.buildSteps).map
              (fun s => if s.blueprintTypeId = blueprint.blueprintTypeId then s
                else scaleStep numberOfBpcs s)
          excessTracker := st1.excessTracker.map (fun p => (p.1, p.2 * numberOfBpcs)) }
      else st1
    let excessMaterials := (st2.excessTracker.filter (fun p => 0 < p.2)).map
      (fun p =>
        { typeId := p.1
          name := getTypeName env p.1
          quantity := p.2
          volume := (match getTypeInfo env p.1 with
            | some info => info.volume
            | none => 0) * p.2 : ExcessMaterial })
    let totalTime := st2.buildSteps.foldl (fun sum s => sum + s.time) 0
    let totalJobCost := st2.buildSteps.foldl (fun sum s => sum + s.jobCost) 0
    some
      { targetBlueprint := blueprint
        rawMaterials := st2.rawMaterials.map (fun p => p.2)
        buildSteps := st2.buildSteps
        totalTime := totalTime
        totalJobCost := totalJobCost
        excessMaterials := excessMaterials }

/-!  Concrete test fixtures.  `env1` is the three-level excess-reuse
scenario of the spec: the target needs 7 B and 1 C, B is produced 10 per
run (banking 3 excess), and C needs 2 B that must come from the bank.
`env2` is the cross-activity scenario: a Manufacturing target whose only
material is produced by a Reaction blueprint. -/

def bpB : BlueprintData :=
  { blueprintTypeId := 102, blueprintName := "B Blueprint", productTypeId := 2
    productName := "B", activityId := 1, time := 50
    materials := [{ typeId := 1, quantity := 3 }], producedQuantity := 10 }

def bpC : BlueprintData :=
  { blueprintTypeId := 103, blueprintName := "C Blueprint", productTypeId := 3
    productName := "C", activityId := 1, time := 30
    materials := [{ typeId := 2, quantity := 2 }], producedQuantity := 1 }

def bpT : BlueprintData :=
  { blueprintTypeId := 104, blueprintName := "T Blueprint", productTypeId := 4
    productName := "T", activityId := 1, time := 100
    materials := [{ typeId := 2, quantity := 7 }, { typeId := 3, quantity := 1 }]
    producedQuantity := 1 }

def env1 : Env :=
  { blueprints := [(102, bpB), (103, bpC), (104, bpT)]
    blueprintsByProduct := [(2, 102), (3, 103), (4, 104)]
    invTypes := [(1, { name := "Z", groupId := some 77, volume := 1 }),
      (2, { name := "B", groupId := some 77, volume := 2 }),
      (3, { name := "C", groupId := some 77, volume := 3 }),
      (4, { name := "T", groupId := none, volume := 4 })]
    invGroups := [(77, "G")] }

/-- All-zero bonus settings with one run of one BPC. -/
def settings0 : IndustrySettings :=
  { blueprintMe := 0, blueprintTe := 0, runs := 1, quantity := 1
    systemCostIndex := 0, facilityTax := 0
    structureBonus := { meBonus := 0, teBonus := 0, jobCostBonus := 0 }
    rigBonus := { meBonus := 0, teBonus := 0 }
    securityMultiplier := 1, componentMe := 0, componentTe := 0 }

def bpR : BlueprintData :=
  { blueprintTypeId := 201, blueprintName := "R Reaction Formula", productTypeId := 21
    productName := "RProd", activityId := 11, time := 60
    materials := [{ typeId := 22, quantity := 2 }], producedQuantity := 1 }

def bpM : BlueprintData :=
  { blueprintTypeId := 204, blueprintName := "M Blueprint", productTypeId := 24
    productName := "M", activityId := 1, time := 80
    materials := [{ typeId := 21, quantity := 5 }], producedQuantity := 1 }

def env2 : Env :=
  { blueprints := [(201, bpR), (204, bpM)]
    blueprintsByProduct := [(21, 201), (24, 204)]
    invTypes := [(21, { name := "RProd", groupId := some 77, volume := 1 }),
      (22, { name := "W", groupId := some 77, volume := 1 }),
      (24, { name := "M", groupId := none, volume := 1 })]
    invGroups := [(77, "G")] }

/-- Expected engine output on `env1`; the pieces below are the records the
run produces, used both by the excess-reuse claim and by batch-scaling
witnesses. -/
def reqZ : MaterialRequirement :=
  { typeId := 1, name := "Z", baseQuantity := 3, adjustedQuantity := 3
    volume := 3, groupName := some "G", isRawMaterial := true }

def reqB7 : MaterialRequirement :=
  { typeId := 2, name := "B", baseQuantity := 7, adjustedQuantity := 7
    volume := 14, groupName := some "G", isRawMaterial := false }

def reqC1 : MaterialRequirement :=
  { typeId := 3, name := "C", baseQuantity := 1, adjustedQuantity := 1
    volume := 3, groupName := some "G", isRawMaterial := false }

def reqB2 : MaterialRequirement :=
  { typeId := 2, name := "B", baseQuantity := 2, adjustedQuantity := 2
    volume := 4, groupName := some "G", isRawMaterial := false }

def stepT1 : BuildStep :=
  { blueprintTypeId := 104, blueprintName := "T Blueprint", productTypeId := 4
    productName := "T", runs := 1, producedQuantity := 1, excessQuantity := 0
    time := 100, jobCost := 0, materials := [reqB7, reqC1] }

def stepC1 : BuildStep :=
  { blueprintTypeId := 103, blueprintName := "C Blueprint", productTypeId := 3
    productName := "C", runs := 1, producedQuantity := 1, excessQuantity := 0
    time := 30, jobCost := 0, materials := [reqB2] }

def stepB1 : BuildStep :=
  { blueprintTypeId := 102, blueprintName := "B Blueprint", productTypeId := 2
    productName := "B", runs := 1, producedQuantity := 10, excessQuantity := 3
    time := 50, jobCost := 0, materials := [reqZ] }

def result1 : CalculationResult :=
  { targetBlueprint := bpT
    rawMaterials := [reqZ]
    buildSteps := [stepT1, stepC1, stepB1]
    totalTime := 180
    totalJobCost := 0
    excessMaterials := [{ typeId := 2, name := "B", quantity := 1, volume := 2 }] }

/-- Expected engine output on `env1` with three BPCs: every quantity of
`result1` scaled by the batch post-pass. -/
def reqZ3 : MaterialRequirement :=
  { typeId := 1, name := "Z", baseQuantity := 9, adjustedQuantity := 9
    volume := 9, groupName := some "G", isRawMaterial := true }

def reqB7s : MaterialRequirement :=
  { typeId := 2, name := "B", baseQuantity := 21, adjustedQuantity := 21
    volume := 42, groupName := some "G", isRawMaterial := false }

def reqC1s : MaterialRequirement :=
  { typeId := 3, name := "C", baseQuantity := 3, adjustedQuantity := 3
    volume := 9, groupName := some "G", isRawMaterial := false }

def reqB2s : MaterialRequirement :=
  { typeId := 2, name := "B", baseQuantity := 6, adjustedQuantity := 6
    volume := 12, groupName := some "G", isRawMaterial := false }

def stepT3 : BuildStep :=
  { blueprintTypeId := 104, blueprintName := "T Blueprint", productTypeId := 4
    productName := "T", runs := 3, producedQuantity := 3, excessQuantity := 0
    time := 300, jobCost := 0, materials := [reqB7s, reqC1s] }

def stepC3 : BuildStep :=
  { blueprintTypeId := 103, blueprintName := "C Blueprint", productTypeId := 3
    productName := "C", runs := 3, producedQuantity := 3, excessQuantity := 0
    time := 90, jobCost := 0, materials := [reqB2s] }

def stepB3 : BuildStep :=
  { blueprintTypeId := 102, blueprintName := "B Blueprint", productTypeId := 2
    productName := "B", runs := 3, producedQuantity := 30, excessQuantity := 9
    time := 150, jobCost := 0, materials := [reqZ3] }

def result1q3 : CalculationResult :=
  { targetBlueprint := bpT
    rawMaterials := [reqZ3]
    buildSteps := [stepT3, stepC3, stepB3]
    totalTime := 540
    totalJobCost := 0
    excessMaterials := [{ typeId := 2, name := "B", quantity := 3, volume := 6 }] }

/-- Expected engine output on the cross-activity fixture `env2`: the
reaction-produced material is merged into the raw materials, with
`isRawMaterial` reflecting only `canBeBuilt`. -/
def req21M : MaterialRequirement :=
  { typeId := 21, name := "RProd", baseQuantity := 5, adjustedQuantity := 5
    volume := 5, groupName := some "G", isRawMaterial := false }

def stepM1 : BuildStep :=
  { blueprintTypeId := 204, blueprintName := "M Blueprint", productTypeId := 24
    productName := "M", runs := 1, producedQuantity := 1, excessQuantity := 0
    time := 80, jobCost := 0, materials := [req21M] }

def result2 : CalculationResult :=
  { targetBlueprint := bpM
    rawMaterials := [req21M]
    buildSteps := [stepM1]
    totalTime := 80
    totalJobCost := 0
    excessMaterials := [] }

/-- Invariant of one material requirement: the stored flag equals the
negation of `canBeBuilt` at its type. -/
def ReqFlagOk (env : Env) (q : MaterialRequirement) : Prop :=
  q.isRawMaterial = !(canBeBuilt env q.typeId)

/-- Invariant of an engine state: every requirement recorded anywhere
carries the `canBeBuilt`-derived flag. -/
def StateFlagOk (env : Env) (st : EngineState) : Prop :=
  (∀ p ∈ st.rawMaterials, ReqFlagOk env p.2) ∧
  (∀ s ∈ st.buildSteps, ∀ q ∈ s.materials, ReqFlagOk env q)

/-- Invariant of a ledger list: every banked entry is nonnegative. -/
def TrackerNonnegL (l : List (Nat × ℚ)) : Prop :=
  ∀ p ∈ l, 0 ≤ p.2

/-- Invariant of the excess ledger of a state. -/
def TrackerNonneg (st : EngineState) : Prop :=
  TrackerNonnegL st.excessTracker

/-- Shape of the bonus tables in the structures JSON file consumed by the
resolver functions. -/
structure StructuresData where
  industryStructures : List (String × StructureBonus)
  rigs : List (String × RigBonus)
  securityMultipliers : List (String × ℚ)
  defaultComponentME : ℚ
  defaultComponentTE : ℚ
  deriving Repr, DecidableEq

/-- Resolver `getStructureBonus`: index into the structure table and then
read the three bonus fields.  On an unknown key the table index yields
`undefined` and the subsequent field read throws a TypeError, so the
function never returns a bonus; the thrown error is `Except.error`. -/
def getStructureBonus (tables : StructuresData) (structureType : String) :
    Except String StructureBonus :=
  match tables.industryStructures.lookup structureType with
  | none => Except.error "TypeError"
  | some s =>
    Except.ok { meBonus := s.meBonus, teBonus := s.teBonus, jobCostBonus := s.jobCostBonus }

/-- Resolver `getRigBonus`: like `getStructureBonus`, it reads the two bonus
fields of the indexed entry and therefore throws on an unknown key. -/
def getRigBonus (tables : StructuresData) (rigType : String) : Except String RigBonus :=
  match tables.rigs.lookup rigType with
  | none => Except.error "TypeError"
  | some r => Except.ok { meBonus := r.meBonus, teBonus := r.teBonus }

/-- Resolver `getSecurityMultiplier`: a direct table index with no field
read.  On an unknown key it silently returns the JavaScript value
`undefined` — modelled as the returned value `none` — and raises no
failure of any kind. -/
def getSecurityMultiplier (tables : StructuresData) (securityType : String) : Option ℚ :=
  tables.securityMultipliers.lookup securityType

/-- A concrete bonus-table fixture in the shape of the structures JSON. -/
def tablesFixture : StructuresData :=
  { industryStructures := [("raitaru", { meBonus := 1/100, teBonus := 15/100, jobCostBonus := 3/100 }),
      ("azbel", { meBonus := 1/100, teBonus := 1/5, jobCostBonus := 4/100 })]
    rigs := [("t1", { meBonus := 2/100, teBonus := 1/5 }),
      ("t2", { meBonus := 24/1000, teBonus := 24/100 })]
    securityMultipliers := [("highsec", 1), ("lowsec", 19/10), ("nullsec", 21/10)]
    defaultComponentME := 10
    defaultComponentTE := 20 }

/-- Evaluation rule for ceilings of concrete rationals (kernel reduction is
not available on `ℚ`, so concrete values are certified by bounds). -/
theorem ceil_eval (x : ℚ) (n : ℤ) (h₁ : (n : ℚ) - 1 < x) (h₂ : x ≤ (n : ℚ)) :
    (⌈x⌉ : ℤ) = n :=
  Int.ceil_eq_iff.mpr ⟨h₁, h₂⟩

/-- Evaluation rule for `round2` at concrete rationals. -/
theorem round2_eval (x : ℚ) (n : ℤ) (h₁ : (n : ℚ) ≤ x * 100 + 1/2)
    (h₂ : x * 100 + 1/2 < (n : ℚ) + 1) : round2 x = (n : ℚ) / 100 := by
  unfold round2
  rw [Int.floor_eq_iff.mpr ⟨h₁, h₂⟩]

/-- Evaluation rule for `calculateMaterialQuantity` at concrete inputs:
`m` certifies the rounding step and `n` the ceiling step. -/
theorem calculateMaterialQuantity_eval (b r me sb rb sm : ℚ) (m n : ℤ)
    (h₁ : (m : ℚ) ≤ b * r * (1 - (me / 100 + sb + rb * sm)) * 100 + 1/2)
    (h₂ : b * r * (1 - (me / 100 + sb + rb * sm)) * 100 + 1/2 < (m : ℚ) + 1)
    (h₃ : (n : ℚ) - 1 < (m : ℚ) / 100) (h₄ : (m : ℚ) / 100 ≤ (n : ℚ)) :
    calculateMaterialQuantity b r me sb rb sm = max r (n : ℚ) := by
  simp only [calculateMaterialQuantity]
  rw [round2_eval _ m h₁ h₂, ceil_eval _ n h₃ h₄]

/-- Evaluation rule for `calculateJobTime` at concrete inputs. -/
theorem calculateJobTime_eval (bt r te sb rb sm : ℚ) (n : ℤ)
    (h₁ : (n : ℚ) - 1 < bt * r * (1 - min (te / 100 + sb + rb * sm) (9/10)))
    (h₂ : bt * r * (1 - min (te / 100 + sb + rb * sm) (9/10)) ≤ (n : ℚ)) :
    calculateJobTime bt r te sb rb sm = (n : ℚ) := by
  simp only [calculateJobTime]
  rw [ceil_eval _ n h₁ h₂]

/-- Evaluation of the engine on the excess-reuse fixture `env1` with one
run of one BPC and zero bonuses. -/
theorem run_env1 (fuel : ℕ) : calculateRecursiveBuild env1 (fuel + 1 + 1) 104 settings0 [] =
    some result1 := by
  have h7 : calculateMaterialQuantity 7 1 0 0 0 1 = 7 := by
    rw [calculateMaterialQuantity_eval 7 1 0 0 0 1 700 7 (by norm_num) (by norm_num)
      (by norm_num) (by norm_num)]
    norm_num
  have h3 : calculateMaterialQuantity 3 1 0 0 0 1 = 3 := by
    rw [calculateMaterialQuantity_eval 3 1 0 0 0 1 300 3 (by norm_num) (by norm_num)
      (by norm_num) (by norm_num)]
    norm_num
  have h1q : calculateMaterialQuantity 1 1 0 0 0 1 = 1 := by
    rw [calculateMaterialQuantity_eval 1 1 0 0 0 1 100 1 (by norm_num) (by norm_num)
      (by norm_num) (by norm_num)]
    norm_num
  have h2q : calculateMaterialQuantity 2 1 0 0 0 1 = 2 := by
    rw [calculateMaterialQuantity_eval 2 1 0 0 0 1 200 2 (by norm_num) (by norm_num)
      (by norm_num) (by norm_num)]
    norm_num
  have hc7 : ((⌈(7:ℚ)/10⌉ : ℤ) : ℚ) = 1 := by
    rw [ceil_eval ((7:ℚ)/10) 1 (by norm_num) (by norm_num)]
    norm_num
  have hc1 : ((⌈(1:ℚ)/1⌉ : ℤ) : ℚ) = 1 := by
    rw [ceil_eval ((1:ℚ)/1) 1 (by norm_num) (by norm_num)]
    norm_num
  have jt50 : calculateJobTime 50 1 0 0 0 1 = 50 := by
    rw [calculateJobTime_eval 50 1 0 0 0 1 50 (by norm_num) (by norm_num)]
    norm_num
  have jt30 : calculateJobTime 30 1 0 0 0 1 = 30 := by
    rw [calculateJobTime_eval 30 1 0 0 0 1 30 (by norm_num) (by norm_num)]
    norm_num
  have jt100 : calculateJobTime 100 1 0 0 0 1 = 100 := by
    rw [calculateJobTime_eval 100 1 0 0 0 1 100 (by norm_num) (by norm_num)]
    norm_num
  have c03 : (0:ℚ) < 3 := by norm_num
  have c07 : (0:ℚ) < 7 := by norm_num
  have c01 : (0:ℚ) < 1 := by norm_num
  have cs1 : (10:ℚ) - 7 = 3 := by norm_num
  have cmin : min (3:ℚ) 2 = 2 := by norm_num
  have cs2 : (2:ℚ) - 2 = 0 := by norm_num
  have cs3 : (3:ℚ) - 2 = 1 := by norm_num
  have c710 : (7:ℚ) < 10 := by norm_num
  have cv14 : (2:ℚ) * 7 = 14 := by norm_num
  have cv4 : (2:ℚ) * 2 = 4 := by norm_num
  have ct1 : (100:ℚ) + 30 = 130 := by norm_num
  have ct2 : (130:ℚ) + 50 = 180 := by norm_num
  simp [calculateRecursiveBuild, processBlueprintRecursive, processMaterial, mkMaterialReq, mergeRaw,
    getBlueprint, getBlueprintByProduct, getTypeInfo, getTypeName, getGroupName, canBeBuilt,
    getEntry, updateMap, env1, bpT, bpB, bpC, settings0, List.lookup, result1,
    reqZ, reqB7, reqC1, reqB2, stepT1, stepC1, stepB1,
    ACTIVITY_REACTION, ACTIVITY_MANUFACTURING,
    h7, h3, h1q, h2q, hc7, hc1, jt50, jt30, jt100,
    c03, c07, c01, cs1, cmin, cs2, cs3, c710, cv14, cv4, ct1, ct2]

/-- Upper bound of two-decimal rounding: it exceeds its argument by at most
half of the last decimal place. -/
theorem round2_le (x : ℚ) : round2 x ≤ x + 1/200 := by
  unfold round2
  have h := Int.floor_le (x * 100 + 1/2)
  rw [div_le_iff₀ (by norm_num : (0:ℚ) < 100)]
  linarith

/-- Lower bound of two-decimal rounding. -/
theorem lt_round2 (x : ℚ) : x - 1/200 < round2 x := by
  unfold round2
  have h := Int.sub_one_lt_floor (x * 100 + 1/2)
  rw [lt_div_iff₀ (by norm_num : (0:ℚ) < 100)]
  linarith

theorem lookup_updateMap_self {β : Type} (k : Nat) (v : β) :
    ∀ l : List (Nat × β), (updateMap k v l).lookup k = some v := by
  intro l
  induction l with
  | nil => simp [updateMap, List.lookup]
  | cons hd tl ih =>
    by_cases h : hd.1 = k
    · simp [updateMap, h, List.lookup]
    · have hb : (k == hd.1) = false := by simpa using Ne.symm h
      simp [updateMap, h, List.lookup, hb, ih]

theorem lookup_updateMap_ne {β : Type} (k k2 : Nat) (v : β) (hne : k2 ≠ k) :
    ∀ l : List (Nat × β), (updateMap k v l).lookup k2 = l.lookup k2 := by
  have hb : (k2 == k) = false := by simpa using hne
  intro l
  induction l with
  | nil => simp [updateMap, List.lookup, hb]
  | cons hd tl ih =>
    by_cases h : hd.1 = k
    · subst h
      simp [updateMap, List.lookup, hb]
    · simp [updateMap, h, List.lookup, ih]

theorem getEntry_updateMap_self (k : Nat) (v : ℚ) (l : List (Nat × ℚ)) :
    getEntry (updateMap k v l) k = v := by
  simp [getEntry, lookup_updateMap_self]

theorem getEntry_updateMap_ne (k k2 : Nat) (v : ℚ) (l : List (Nat × ℚ)) (hne : k2 ≠ k) :
    getEntry (updateMap k v l) k2 = getEntry l k2 := by
  simp [getEntry, lookup_updateMap_ne k k2 v hne]

theorem mem_updateMap {β : Type} (k : Nat) (v : β) :
    ∀ (l : List (Nat × β)) (q : Nat × β), q ∈ updateMap k v l → q = (k, v) ∨ q ∈ l := by
  intro l
  induction l with
  | nil => intro q hq; simp [updateMap] at hq; exact Or.inl hq
  | cons hd tl ih =>
    intro q hq
    by_cases h : hd.1 = k
    · rw [show updateMap k v (hd :: tl) = (k, v) :: tl by simp [updateMap, h]] at hq
      rcases List.mem_cons.mp hq with hq | hq
      · exact Or.inl hq
      · exact Or.inr (List.mem_cons_of_mem _ hq)
    · rw [show updateMap k v (hd :: tl) = hd :: updateMap k v tl by simp [updateMap, h]] at hq
      rcases List.mem_cons.mp hq with hq | hq
      · exact Or.inr (List.mem_cons.mpr (Or.inl hq))
      · rcases ih q hq with h2 | h2
        · exact Or.inl h2
        · exact Or.inr (List.mem_cons_of_mem _ h2)

theorem lookup_mem {β : Type} :
    ∀ (l : List (Nat × β)) (k : Nat) (v : β), l.lookup k = some v → (k, v) ∈ l := by
  intro l
  induction l with
  | nil => intro k v h; simp [List.lookup] at h
  | cons hd tl ih =>
    intro k v h
    rw [List.lookup] at h
    by_cases hk : k == hd.1
    · rw [hk] at h
      simp only [Option.some.injEq] at h
      have : k = hd.1 := by simpa using hk
      subst this
      subst h
      exact List.mem_cons_self _ _
    · rw [Bool.not_eq_true] at hk
      rw [hk] at h
      exact List.mem_cons_of_mem _ (ih k v h)

/-- Fold preservation: an invariant preserved by the folded function is
preserved by the fold. -/
theorem foldl_preserve {α σ : Type} (P : σ → Prop) (f : σ → α → σ) :
    ∀ (l : List α) (s : σ), (∀ s2 a, a ∈ l → P s2 → P (f s2 a)) → P s → P (l.foldl f s) := by
  intro l
  induction l with
  | nil => intro s _ hs; simpa using hs
  | cons hd tl ih =>
    intro s hf hs
    rw [List.foldl_cons]
    exact ih _ (fun s2 a ha => hf s2 a (List.mem_cons_of_mem _ ha))
      (hf s hd (List.mem_cons_self _ _) hs)

theorem scaleRequirement_one (q : MaterialRequirement) : scaleRequirement 1 q = q := by
  simp [scaleRequirement]

/-- Evaluation of the engine on the cross-activity fixture `env2`. -/
theorem run_env2 (fuel : ℕ) : calculateRecursiveBuild env2 (fuel + 1) 204 settings0 [] =
    some result2 := by
  have h5 : calculateMaterialQuantity 5 1 0 0 0 1 = 5 := by
    rw [calculateMaterialQuantity_eval 5 1 0 0 0 1 500 5 (by norm_num) (by norm_num)
      (by norm_num) (by norm_num)]
    norm_num
  have jt80 : calculateJobTime 80 1 0 0 0 1 = 80 := by
    rw [calculateJobTime_eval 80 1 0 0 0 1 80 (by norm_num) (by norm_num)]
    norm_num
  simp [calculateRecursiveBuild, processBlueprintRecursive, processMaterial, mkMaterialReq, mergeRaw,
    getBlueprint, getBlueprintByProduct, getTypeInfo, getTypeName, getGroupName, canBeBuilt,
    getEntry, updateMap, env2, bpM, bpR, settings0, List.lookup, result2, req21M, stepM1,
    ACTIVITY_REACTION, ACTIVITY_MANUFACTURING, h5, jt80]

/-- Evaluation of the engine on `env1` with three BPCs: the batch post-pass
fires and scales every output. -/
theorem run_env1_q3 (fuel : ℕ) :
    calculateRecursiveBuild env1 (fuel + 1 + 1) 104 { settings0 with quantity := 3 } [] =
    some result1q3 := by
  have h7 : calculateMaterialQuantity 7 1 0 0 0 1 = 7 := by
    rw [calculateMaterialQuantity_eval 7 1 0 0 0 1 700 7 (by norm_num) (by norm_num)
      (by norm_num) (by norm_num)]
    norm_num
  have h3 : calculateMaterialQuantity 3 1 0 0 0 1 = 3 := by
    rw [calculateMaterialQuantity_eval 3 1 0 0 0 1 300 3 (by norm_num) (by norm_num)
      (by norm_num) (by norm_num)]
    norm_num
  have h1q : calculateMaterialQuantity 1 1 0 0 0 1 = 1 := by
    rw [calculateMaterialQuantity_eval 1 1 0 0 0 1 100 1 (by norm_num) (by norm_num)
      (by norm_num) (by norm_num)]
    norm_num
  have h2q : calculateMaterialQuantity 2 1 0 0 0 1 = 2 := by
    rw [calculateMaterialQuantity_eval 2 1 0 0 0 1 200 2 (by norm_num) (by norm_num)
      (by norm_num) (by norm_num)]
    norm_num
  have hc7 : ((⌈(7:ℚ)/10⌉ : ℤ) : ℚ) = 1 := by
    rw [ceil_eval ((7:ℚ)/10) 1 (by norm_num) (by norm_num)]
    norm_num
  have hc1 : ((⌈(1:ℚ)/1⌉ : ℤ) : ℚ) = 1 := by
    rw [ceil_eval ((1:ℚ)/1) 1 (by norm_num) (by norm_num)]
    norm_num
  have jt50 : calculateJobTime 50 1 0 0 0 1 = 50 := by
    rw [calculateJobTime_eval 50 1 0 0 0 1 50 (by norm_num) (by norm_num)]
    norm_num
  have jt30 : calculateJobTime 30 1 0 0 0 1 = 30 := by
    rw [calculateJobTime_eval 30 1 0 0 0 1 30 (by norm_num) (by norm_num)]
    norm_num
  have jt100 : calculateJobTime 100 1 0 0 0 1 = 100 := by
    rw [calculateJobTime_eval 100 1 0 0 0 1 100 (by norm_num) (by norm_num)]
    norm_num
  have c03 : (0:ℚ) < 3 := by norm_num
  have c07 : (0:ℚ) < 7 := by norm_num
  have c01 : (0:ℚ) < 1 := by norm_num
  have cs1 : (10:ℚ) - 7 = 3 := by norm_num
  have cmin : min (3:ℚ) 2 = 2 := by norm_num
  have cs2 : (2:ℚ) - 2 = 0 := by norm_num
  have cs3 : (3:ℚ) - 2 = 1 := by norm_num
  have c710 : (7:ℚ) < 10 := by norm_num
  have cv14 : (2:ℚ) * 7 = 14 := by norm_num
  have cv4 : (2:ℚ) * 2 = 4 := by norm_num
  have c13 : (1:ℚ) < 3 := by norm_num
  have cm1 : (3:ℚ) * 3 = 9 := by norm_num
  have cm2 : (7:ℚ) * 3 = 21 := by norm_num
  have cm3 : (14:ℚ) * 3 = 42 := by norm_num
  have cm4 : (2:ℚ) * 3 = 6 := by norm_num
  have cm5 : (4:ℚ) * 3 = 12 := by norm_num
  have cm6 : (10:ℚ) * 3 = 30 := by norm_num
  have cm7 : (100:ℚ) * 3 = 300 := by norm_num
  have cm8 : (30:ℚ) * 3 = 90 := by norm_num
  have cm9 : (50:ℚ) * 3 = 150 := by norm_num
  have ct1 : (300:ℚ) + 90 = 390 := by norm_num
  have ct2 : (390:ℚ) + 150 = 540 := by norm_num
  simp [calculateRecursiveBuild, processBlueprintRecursive, processMaterial, mkMaterialReq, mergeRaw,
    getBlueprint, getBlueprintByProduct, getTypeInfo, getTypeName, getGroupName, canBeBuilt,
    getEntry, updateMap, env1, bpT, bpB, bpC, settings0, List.lookup, result1q3,
    reqZ3, reqB7s, reqC1s, reqB2s, stepT3, stepC3, stepB3,
    scaleRequirement, scaleStep, scaleFirstMatching,
    ACTIVITY_REACTION, ACTIVITY_MANUFACTURING,
    h7, h3, h1q, h2q, hc7, hc1, jt50, jt30, jt100,
    c03, c07, c01, cs1, cmin, cs2, cs3, c710, cv14, cv4, c13,
    cm1, cm2, cm3, cm4, cm5, cm6, cm7, cm8, cm9, ct1, ct2]

/-- Congruence of the loop body in the settings fields it actually reads:
the batch count (`quantity`) is not among them. -/
theorem processMaterial_congr (env : Env) (top : Nat)
    (recurse : BlueprintData → ℚ → EngineState → EngineState)
    (runs me : ℚ) (mat : BlueprintMaterial) (acc : StepAcc) (s1 s2 : IndustrySettings)
    (hsb : s1.structureBonus = s2.structureBonus) (hrb : s1.rigBonus = s2.rigBonus)
    (hsm : s1.securityMultiplier = s2.securityMultiplier) :
    processMaterial env s1 top recurse runs me mat acc =
      processMaterial env s2 top recurse runs me mat acc := by
  simp only [processMaterial, mkMaterialReq, hsb, hrb, hsm]

/-- The recursive expansion never reads `settings.quantity`: runs with any
two batch counts coincide. -/
theorem pbr_quantity_irrel (env : Env) (prices : List (Nat × ℚ)) (top : Nat)
    (s : IndustrySettings) (a b : ℚ) :
    ∀ (fuel : ℕ) (bp : BlueprintData) (runs : ℚ) (isTop : Bool) (me te : ℚ)
      (st : EngineState),
      processBlueprintRecursive env { s with quantity := a } top prices fuel bp runs
        isTop me te st =
      processBlueprintRecursive env { s with quantity := b } top prices fuel bp runs
        isTop me te st := by
  intro fuel
  induction fuel with
  | zero => intro bp runs isTop me te st; rfl
  | succ n ih =>
    intro bp runs isTop me te st
    simp only [processBlueprintRecursive]
    have hcl :
        (fun (cbp : BlueprintData) (componentRuns : ℚ) (s2 : EngineState) =>
          processBlueprintRecursive env { s with quantity := a } top prices n cbp
            componentRuns false ({ s with quantity := a } : IndustrySettings).componentMe
            ({ s with quantity := a } : IndustrySettings).componentTe s2) =
        (fun (cbp : BlueprintData) (componentRuns : ℚ) (s2 : EngineState) =>
          processBlueprintRecursive env { s with quantity := b } top prices n cbp
            componentRuns false ({ s with quantity := b } : IndustrySettings).componentMe
            ({ s with quantity := b } : IndustrySettings).componentTe s2) := by
      funext cbp componentRuns s2
      exact ih cbp componentRuns false _ _ s2
    rw [hcl]
    have hfun :
        (fun (acc : StepAcc) (mat : BlueprintMaterial) =>
          processMaterial env { s with quantity := a } top
            (fun cbp componentRuns s2 =>
              processBlueprintRecursive env { s with quantity := b } top prices n cbp
                componentRuns false ({ s with quantity := b } : IndustrySettings).componentMe
                ({ s with quantity := b } : IndustrySettings).componentTe s2)
            runs me mat acc) =
        (fun (acc : StepAcc) (mat : BlueprintMaterial) =>
          processMaterial env { s with quantity := b } top
            (fun cbp componentRuns s2 =>
              processBlueprintRecursive env { s with quantity := b } top prices n cbp
                componentRuns false ({ s with quantity := b } : IndustrySettings).componentMe
                ({ s with quantity := b } : IndustrySettings).componentTe s2)
            runs me mat acc) := by
      funext acc mat
      exact processMaterial_congr env top _ runs me mat acc _ _ rfl rfl rfl
    rw [hfun]

/-- C2: for every baseQuantity ≥ 0 and runs ≥ 1 and all bonus parameters,
`calculateMaterialQuantity` returns
`max(runs, ceil(round2(baseQuantity * runs * (1 - (me/100 + structure +
rig * security)))))` with `round2` rounding half-up at two decimals; hence
the result is at least `runs`, and at baseQuantity 1, runs 10, ME 10,
structure bonus 0.01, rig bonus 0.02, security 1.9 it is exactly 10. -/
theorem materialQuantity_formula :
    (∀ b r me sb rb sm : ℚ, 0 ≤ b → 1 ≤ r →
      calculateMaterialQuantity b r me sb rb sm =
        max r ((⌈round2 (b * r * (1 - (me / 100 + sb + rb * sm)))⌉ : ℤ) : ℚ) ∧
      r ≤ calculateMaterialQuantity b r me sb rb sm) ∧
    calculateMaterialQuantity 1 10 10 (1/100) (2/100) (19/10) = 10 := by
  constructor
  · intro b r me sb rb sm _ _
    exact ⟨rfl, le_max_left _ _⟩
  · rw [calculateMaterialQuantity_eval 1 10 10 (1/100) (2/100) (19/10) 852 9
      (by norm_num) (by norm_num) (by norm_num) (by norm_num)]
    norm_num

/-- Witness for `materialQuantity_formula` at baseQuantity 1, runs 10. -/
theorem materialQuantity_formula_witness :
    (10:ℚ) ≤ calculateMaterialQuantity 1 10 10 (1/100) (2/100) (19/10) :=
  (materialQuantity_formula.1 1 10 10 (1/100) (2/100) (19/10)
    (by norm_num) (by norm_num)).2

/-- C6: for every baseTime ≥ 0 and runs ≥ 1, `calculateJobTime` returns
`ceil(baseTime * runs * (1 - min(te/100 + structure + rig * security,
0.9)))`; when the stacked bonuses exceed 0.9 the result is exactly
`ceil(baseTime * runs * 0.1)`. -/
theorem jobTime_formula :
    ∀ bt r te sb rb sm : ℚ, 0 ≤ bt → 1 ≤ r →
      calculateJobTime bt r te sb rb sm =
        ((⌈bt * r * (1 - min (te / 100 + sb + rb * sm) (9/10))⌉ : ℤ) : ℚ) ∧
      ((9:ℚ)/10 < te / 100 + sb + rb * sm →
        calculateJobTime bt r te sb rb sm = ((⌈bt * r * (1/10)⌉ : ℤ) : ℚ)) := by
  intro bt r te sb rb sm _ _
  refine ⟨rfl, fun h => ?_⟩
  simp only [calculateJobTime]
  rw [min_eq_right h.le]
  norm_num

/-- Witness for `jobTime_formula`: stacked time bonuses of 0.95 hit the
90 percent cap. -/
theorem jobTime_formula_witness :
    calculateJobTime 100 2 95 0 0 1 = ((⌈(100:ℚ) * 2 * (1/10)⌉ : ℤ) : ℚ) :=
  (jobTime_formula 100 2 95 0 0 1 (by norm_num) (by norm_num)).2 (by norm_num)

/-- C5 counterexample: at baseQuantity 100, runs 20, a structure bonus of
0.00996 (all other bonuses zero) the batch quantity exceeds twenty times the
single-run quantity — the two-decimal rounding rounds the single-run value
down across an integer boundary. -/
theorem materialQuantity_superlinearity_cex :
    20 * calculateMaterialQuantity 100 1 0 (996/100000) 0 1 <
      calculateMaterialQuantity 100 20 0 (996/100000) 0 1 := by
  rw [calculateMaterialQuantity_eval 100 1 0 (996/100000) 0 1 9900 99
    (by norm_num) (by norm_num) (by norm_num) (by norm_num)]
  rw [calculateMaterialQuantity_eval 100 20 0 (996/100000) 0 1 198008 1981
    (by norm_num) (by norm_num) (by norm_num) (by norm_num)]
  norm_num

/-- Core bound behind the amended C5: scaling the demand by `N` can exceed
`N` times the single-run result only by the rounding slack
`ceil((N + 1)/200)`. -/
theorem scaled_round_ceil_bound (x : ℚ) (N : ℕ) (hN : 1 ≤ N) :
    max (N:ℚ) ((⌈round2 ((N:ℚ) * x)⌉ : ℤ) : ℚ) ≤
      (N:ℚ) * max 1 ((⌈round2 x⌉ : ℤ) : ℚ) + ((⌈((N:ℚ) + 1)/200⌉ : ℤ) : ℚ) := by
  have hN1 : (1:ℚ) ≤ (N:ℚ) := by exact_mod_cast hN
  have hNpos : (0:ℚ) < (N:ℚ) := by linarith
  set c : ℤ := ⌈round2 x⌉ with hc
  set k : ℤ := ⌈((N:ℚ) + 1)/200⌉ with hk
  have hkpos : (1:ℤ) ≤ k := by
    have h0 : (0:ℚ) < ((N:ℚ) + 1)/200 := by positivity
    exact Int.ceil_pos.mpr h0
  have hkq : (1:ℚ) ≤ (k:ℚ) := by exact_mod_cast hkpos
  have hxc : x < (c:ℚ) + 1/200 := by
    have h1 : round2 x ≤ (c:ℚ) := Int.le_ceil _
    have h2 : x - 1/200 < round2 x := lt_round2 x
    linarith
  have hup : round2 ((N:ℚ) * x) ≤ (N:ℚ) * x + 1/200 := round2_le _
  have hkc : ((N:ℚ) + 1)/200 ≤ (k:ℚ) := Int.le_ceil _
  have hmul : (N:ℚ) * x < (N:ℚ) * (c:ℚ) + (N:ℚ)/200 := by nlinarith
  have hceil : (⌈round2 ((N:ℚ) * x)⌉ : ℤ) ≤ (N:ℤ) * c + k := by
    apply Int.ceil_le.mpr
    push_cast
    linarith
  apply max_le
  · have h1c : (1:ℚ) ≤ max 1 ((c:ℤ):ℚ) := le_max_left _ _
    have h2 : (N:ℚ) * 1 ≤ (N:ℚ) * max 1 ((c:ℤ):ℚ) :=
      mul_le_mul_of_nonneg_left h1c hNpos.le
    linarith
  · have hcm : ((c:ℤ):ℚ) ≤ max 1 ((c:ℤ):ℚ) := le_max_right _ _
    have h2 : (N:ℚ) * ((c:ℤ):ℚ) ≤ (N:ℚ) * max 1 ((c:ℤ):ℚ) :=
      mul_le_mul_of_nonneg_left hcm hNpos.le
    have h3 : ((⌈round2 ((N:ℚ) * x)⌉ : ℤ) : ℚ) ≤ (N:ℚ) * ((c:ℤ):ℚ) + (k:ℚ) := by
      exact_mod_cast hceil
    linarith

/-- Amended C5: for every baseQuantity, all efficiency parameters and every
batch size N ≥ 1, the batch quantity is at most N times the single-run
quantity plus the rounding slack `ceil((N + 1)/200)` (so at most N times
plus one whenever N ≤ 198); the slack-free claim fails, see the
counterexample. -/
theorem materialQuantity_superlinearity_amended :
    ∀ (b me sb rb sm : ℚ) (N : ℕ), 1 ≤ N →
      calculateMaterialQuantity b (N:ℚ) me sb rb sm ≤
        (N:ℚ) * calculateMaterialQuantity b 1 me sb rb sm +
          ((⌈((N:ℚ) + 1)/200⌉ : ℤ) : ℚ) := by
  intro b me sb rb sm N hN
  simp only [calculateMaterialQuantity]
  have harg : b * (N:ℚ) * (1 - (me / 100 + sb + rb * sm)) =
      (N:ℚ) * (b * 1 * (1 - (me / 100 + sb + rb * sm))) := by ring
  rw [harg]
  exact scaled_round_ceil_bound (b * 1 * (1 - (me / 100 + sb + rb * sm))) N hN

/-- Witness for the amended C5 at baseQuantity 100, N = 20. -/
theorem materialQuantity_superlinearity_amended_witness :
    calculateMaterialQuantity 100 ((20:ℕ):ℚ) 0 0 0 1 ≤
      ((20:ℕ):ℚ) * calculateMaterialQuantity 100 1 0 0 0 1 +
        ((⌈(((20:ℕ):ℚ) + 1)/200⌉ : ℤ) : ℚ) :=
  materialQuantity_superlinearity_amended 100 0 0 0 1 20 (by norm_num)

/-- C8: the calculation fails exactly when the target blueprint id has no
reference-data entry, and a successful run returns the looked-up blueprint
as its target — in the `Option`-modelled embedding the failure happens
before any accumulator exists, so no partial output can be produced. -/
theorem blueprintNotFound_spec :
    ∀ (env : Env) (fuel : ℕ) (id : Nat) (s : IndustrySettings) (p : List (Nat × ℚ)),
      (calculateRecursiveBuild env fuel id s p = none ↔ getBlueprint env id = none) ∧
      (∀ r, calculateRecursiveBuild env fuel id s p = some r →
        getBlueprint env id = some r.targetBlueprint) := by
  intro env fuel id s p
  cases h : getBlueprint env id with
  | none => simp [calculateRecursiveBuild, h]
  | some bp =>
    constructor
    · simp [calculateRecursiveBuild, h]
    · intro r hr
      simp only [calculateRecursiveBuild, h, Option.some.injEq] at hr
      rw [← hr]

/-- Witness for `blueprintNotFound_spec` on the `env1` fixture. -/
theorem blueprintNotFound_spec_witness :
    getBlueprint env1 104 = some result1.targetBlueprint :=
  (blueprintNotFound_spec env1 2 104 settings0 []).2 result1 (run_env1 0)

/-- C9 counterexample: on the unknown key of the concrete table fixture the
structure and rig resolvers do fail (the field read on the missing entry
throws), but `getSecurityMultiplier` performs no field read: it silently
returns the JavaScript value `undefined` (the returned value `none`) and
raises no failure, refuting the claim that all three resolvers fail with an
UnknownOption error kind rather than returning a value. -/
theorem unknownOption_resolvers_cex :
    getSecurityMultiplier tablesFixture "frigate" = none ∧
    tablesFixture.securityMultipliers.lookup "frigate" = none ∧
    getStructureBonus tablesFixture "frigate" = Except.error "TypeError" ∧
    getRigBonus tablesFixture "frigate" = Except.error "TypeError" := by
  refine ⟨?_, ?_, ?_, ?_⟩ <;>
    simp [getSecurityMultiplier, getStructureBonus, getRigBonus, tablesFixture, List.lookup]

/-- Amended C9: a structure or rig key with no bonus-table entry makes
`getStructureBonus` and `getRigBonus` fail instead of returning a bonus
(the field read on the missing entry throws); `getSecurityMultiplier`, a
bare table index, instead silently returns `undefined` on an unknown key —
a value, not a failure. -/
theorem unknownOption_resolvers_amended :
    ∀ (tables : StructuresData) (k : String),
      (tables.industryStructures.lookup k = none →
        getStructureBonus tables k = Except.error "TypeError") ∧
      (tables.rigs.lookup k = none → getRigBonus tables k = Except.error "TypeError") ∧
      (tables.securityMultipliers.lookup k = none → getSecurityMultiplier tables k = none) := by
  intro tables k
  refine ⟨fun h => ?_, fun h => ?_, fun h => ?_⟩
  · simp [getStructureBonus, h]
  · simp [getRigBonus, h]
  · simp [getSecurityMultiplier, h]

/-- Witness for `unknownOption_resolvers_amended` at an unknown key on the
concrete table fixture. -/
theorem unknownOption_resolvers_amended_witness :
    getStructureBonus tablesFixture "frigate" = Except.error "TypeError" ∧
    getRigBonus tablesFixture "frigate" = Except.error "TypeError" ∧
    getSecurityMultiplier tablesFixture "frigate" = none :=
  ⟨(unknownOption_resolvers_amended tablesFixture "frigate").1
      (by simp [tablesFixture, List.lookup]),
   (unknownOption_resolvers_amended tablesFixture "frigate").2.1
      (by simp [tablesFixture, List.lookup]),
   (unknownOption_resolvers_amended tablesFixture "frigate").2.2
      (by simp [tablesFixture, List.lookup])⟩

theorem getEntry_nonneg (l : List (Nat × ℚ)) (k : Nat) (h : TrackerNonnegL l) :
    0 ≤ getEntry l k := by
  unfold getEntry
  cases hl : l.lookup k with
  | none => simp
  | some v =>
    simp only [Option.getD_some]
    exact h (k, v) (lookup_mem l k v hl)

theorem trackerNonnegL_updateMap (l : List (Nat × ℚ)) (k : Nat) (v : ℚ)
    (hv : 0 ≤ v) (h : TrackerNonnegL l) : TrackerNonnegL (updateMap k v l) := by
  intro p hp
  rcases mem_updateMap k v l p hp with h2 | h2
  · rw [h2]
    exact hv
  · exact h p h2

/-- Merging into the raw-material map touches neither the build-step list
nor the excess ledger. -/
theorem mergeRaw_state (env : Env) (st : EngineState) (mat : BlueprintMaterial)
    (runs adj : ℚ) (req : MaterialRequirement) :
    (mergeRaw env st mat runs adj req).buildSteps = st.buildSteps ∧
    (mergeRaw env st mat runs adj req).excessTracker = st.excessTracker := by
  cases hl : st.rawMaterials.lookup mat.typeId <;> simp [mergeRaw, hl]

theorem scaleRequirement_fields (n : ℚ) (q : MaterialRequirement) :
    (scaleRequirement n q).isRawMaterial = q.isRawMaterial ∧
    (scaleRequirement n q).typeId = q.typeId :=
  ⟨rfl, rfl⟩

theorem mem_scaleFirstMatching (t : Nat) (n : ℚ) :
    ∀ (l : List BuildStep) (s : BuildStep), s ∈ scaleFirstMatching t n l →
      ∃ s0 ∈ l, s = s0 ∨ s = scaleStep n s0 := by
  intro l
  induction l with
  | nil => intro s hs; simp [scaleFirstMatching] at hs
  | cons hd tl ih =>
    intro s hs
    by_cases h : hd.blueprintTypeId = t
    · simp only [scaleFirstMatching, h, if_true, List.mem_cons] at hs
      rcases hs with hs | hs
      · exact ⟨hd, List.mem_cons_self _ _, Or.inr hs⟩
      · exact ⟨s, List.mem_cons_of_mem _ hs, Or.inl rfl⟩
    · simp only [scaleFirstMatching, h, if_false, List.mem_cons] at hs
      rcases hs with hs | hs
      · exact ⟨hd, List.mem_cons_self _ _, Or.inl hs⟩
      · rcases ih s hs with ⟨s0, hs0, h2⟩
        exact ⟨s0, List.mem_cons_of_mem _ hs0, h2⟩

/-- Merging preserves the flag invariant of the raw-material map. -/
theorem mergeRaw_rawFlagOk (env : Env) (st : EngineState) (mat : BlueprintMaterial)
    (runs adj : ℚ) (req : MaterialRequirement) (hreq : ReqFlagOk env req)
    (hst : ∀ p ∈ st.rawMaterials, ReqFlagOk env p.2) :
    ∀ p ∈ (mergeRaw env st mat runs adj req).rawMaterials, ReqFlagOk env p.2 := by
  intro p hp
  cases hl : st.rawMaterials.lookup mat.typeId with
  | some existing =>
    rw [mergeRaw] at hp
    rw [hl] at hp
    simp only at hp
    rcases mem_updateMap _ _ _ p hp with h2 | h2
    · have hex : ReqFlagOk env existing :=
        hst (mat.typeId, existing) (lookup_mem _ _ _ hl)
      rw [h2]
      exact hex
    · exact hst p h2
  | none =>
    rw [mergeRaw] at hp
    rw [hl] at hp
    simp only at hp
    rcases mem_updateMap _ _ _ p hp with h2 | h2
    · rw [h2]
      exact hreq
    · exact hst p h2

theorem mkMaterialReq_flagOk (env : Env) (settings : IndustrySettings) (runs me : ℚ)
    (mat : BlueprintMaterial) : ReqFlagOk env (mkMaterialReq env settings runs me mat) := by
  simp [ReqFlagOk, mkMaterialReq]

/-- Exhaustive description of what one loop iteration can do to the engine
state: merge the requirement into the raw materials, consume banked excess
only, or consume and then hand a component run count to the recursion — in
every case appending exactly the built requirement to the step materials,
and never making a nonnegative ledger negative. -/
theorem processMaterial_cases (env : Env) (settings : IndustrySettings) (top : Nat)
    (recurse : BlueprintData → ℚ → EngineState → EngineState)
    (runs me : ℚ) (mat : BlueprintMaterial) (acc : StepAcc) :
    (∃ adj, processMaterial env settings top recurse runs me mat acc =
        { st := mergeRaw env acc.st mat runs adj (mkMaterialReq env settings runs me mat)
          stepMaterials := acc.stepMaterials ++ [mkMaterialReq env settings runs me mat] }) ∨
    (∃ tr, (TrackerNonnegL acc.st.excessTracker → TrackerNonnegL tr) ∧
      (processMaterial env settings top recurse runs me mat acc =
          { st := { acc.st with excessTracker := tr }
            stepMaterials := acc.stepMaterials ++ [mkMaterialReq env settings runs me mat] } ∨
        ∃ cbp cr, processMaterial env settings top recurse runs me mat acc =
          { st := recurse cbp cr { acc.st with excessTracker := tr }
            stepMaterials := acc.stepMaterials ++ [mkMaterialReq env settings runs me mat] })) := by
  cases hbp : getBlueprintByProduct env mat.typeId with
  | none =>
    left
    refine ⟨calculateMaterialQuantity mat.quantity runs me settings.structureBonus.meBonus
      settings.rigBonus.meBonus settings.securityMultiplier, ?_⟩
    simp only [processMaterial, hbp]
  | some cbp =>
    by_cases hc : (top = ACTIVITY_REACTION ∧ cbp.activityId = ACTIVITY_REACTION) ∨
        (¬top = ACTIVITY_REACTION ∧ ¬cbp.activityId = ACTIVITY_REACTION)
    · right
      set adj := calculateMaterialQuantity mat.quantity runs me settings.structureBonus.meBonus
        settings.rigBonus.meBonus settings.securityMultiplier with hadj
      set excess := getEntry acc.st.excessTracker mat.typeId with hexc
      by_cases hex : 0 < excess
      · set tr1 := updateMap mat.typeId (excess - min excess adj) acc.st.excessTracker with htr1
        have htr1n : TrackerNonnegL acc.st.excessTracker → TrackerNonnegL tr1 := by
          intro h
          apply trackerNonnegL_updateMap _ _ _ _ h
          have := min_le_left excess adj
          linarith
        by_cases hneed : 0 < adj - min excess adj
        · set cr : ℚ := ((⌈(adj - min excess adj) / cbp.producedQuantity⌉ : ℤ) : ℚ) with hcr
          set ne2 := cr * cbp.producedQuantity - (adj - min excess adj) with hne2
          refine ⟨if 0 < ne2 then updateMap mat.typeId (getEntry tr1 mat.typeId + ne2) tr1
              else tr1, ?_, Or.inr ⟨cbp, cr, ?_⟩⟩
          · intro h
            split
            · rename_i hpos
              apply trackerNonnegL_updateMap
              · have h1 : 0 ≤ getEntry tr1 mat.typeId := getEntry_nonneg _ _ (htr1n h)
                linarith
              · exact htr1n h
            · exact htr1n h
          · simp only [processMaterial, hbp, hc, if_true, ← hexc, ← hadj, hex, hneed]
        · refine ⟨tr1, htr1n, Or.inl ?_⟩
          simp only [processMaterial, hbp, hc, if_true, ← hexc, ← hadj, hex, if_neg hneed]
      · by_cases hneed : 0 < adj
        · refine ⟨if 0 < ((⌈adj / cbp.producedQuantity⌉ : ℤ) : ℚ) * cbp.producedQuantity - adj
              then updateMap mat.typeId
                (excess + (((⌈adj / cbp.producedQuantity⌉ : ℤ) : ℚ) * cbp.producedQuantity - adj))
                acc.st.excessTracker
              else acc.st.excessTracker, ?_,
            Or.inr ⟨cbp, ((⌈adj / cbp.producedQuantity⌉ : ℤ) : ℚ), ?_⟩⟩
          · intro h
            split
            · rename_i hpos
              apply trackerNonnegL_updateMap
              · have h1 : 0 ≤ excess := getEntry_nonneg _ _ h
                linarith
              · exact h
            · exact h
          · simp only [processMaterial, hbp, hc, if_true, ← hexc, ← hadj, if_neg hex, hneed]
        · refine ⟨acc.st.excessTracker, fun h => h, Or.inl ?_⟩
          simp only [processMaterial, hbp, hc, if_true, ← hexc, ← hadj, if_neg hex, if_neg hneed]
    · left
      refine ⟨calculateMaterialQuantity mat.quantity runs me settings.structureBonus.meBonus
        settings.rigBonus.meBonus settings.securityMultiplier, ?_⟩
      simp only [processMaterial, hbp, if_neg hc]

/-- The recursive expansion preserves the flag invariant. -/
theorem pbr_flagOk (env : Env) (settings : IndustrySettings) (top : Nat)
    (prices : List (Nat × ℚ)) :
    ∀ (fuel : ℕ) (bp : BlueprintData) (runs : ℚ) (isTop : Bool) (me te : ℚ)
      (st : EngineState), StateFlagOk env st →
      StateFlagOk env (processBlueprintRecursive env settings top prices fuel bp runs
        isTop me te st) := by
  intro fuel
  induction fuel with
  | zero => intro bp runs isTop me te st hst; exact hst
  | succ n ih =>
    intro bp runs isTop me te st hst
    simp only [processBlueprintRecursive]
    have hfold : StateFlagOk env (bp.materials.foldl
        (fun a mat =>
          processMaterial env settings top
            (fun cbp componentRuns s =>
              processBlueprintRecursive env settings top prices n cbp componentRuns false
                settings.componentMe settings.componentTe s)
            runs me mat a)
        { st := st, stepMaterials := [] }).st ∧
        ∀ q ∈ (bp.materials.foldl
          (fun a mat =>
            processMaterial env settings top
              (fun cbp componentRuns s =>
                processBlueprintRecursive env settings top prices n cbp componentRuns false
                  settings.componentMe settings.componentTe s)
              runs me mat a)
          { st := st, stepMaterials := [] }).stepMaterials, ReqFlagOk env q := by
      refine foldl_preserve
        (fun a => StateFlagOk env a.st ∧ ∀ q ∈ a.stepMaterials, ReqFlagOk env q)
        (fun a mat =>
          processMaterial env settings top
            (fun cbp componentRuns s =>
              processBlueprintRecursive env settings top prices n cbp componentRuns false
                settings.componentMe settings.componentTe s)
            runs me mat a)
        bp.materials { st := st, stepMaterials := [] } ?_ ⟨hst, by simp⟩
      intro a mat _ ha
      dsimp only
      rcases processMaterial_cases env settings top
          (fun cbp componentRuns s =>
            processBlueprintRecursive env settings top prices n cbp componentRuns false
              settings.componentMe settings.componentTe s)
          runs me mat a with h | ⟨tr, _, h | ⟨cbp, cr, h⟩⟩
      · rcases h with ⟨adj, h⟩
        rw [h]
        refine ⟨⟨?_, ?_⟩, ?_⟩
        · exact mergeRaw_rawFlagOk env a.st mat runs adj _
            (mkMaterialReq_flagOk env settings runs me mat) ha.1.1
        · rw [(mergeRaw_state env a.st mat runs adj _).1]
          exact ha.1.2
        · intro q hq
          rcases List.mem_append.mp hq with hq | hq
          · exact ha.2 q hq
          · rw [List.mem_singleton.mp hq]
            exact mkMaterialReq_flagOk env settings runs me mat
      · rw [h]
        refine ⟨⟨ha.1.1, ha.1.2⟩, ?_⟩
        intro q hq
        rcases List.mem_append.mp hq with hq | hq
        · exact ha.2 q hq
        · rw [List.mem_singleton.mp hq]
          exact mkMaterialReq_flagOk env settings runs me mat
      · rw [h]
        refine ⟨ih cbp cr false settings.componentMe settings.componentTe _
          ⟨ha.1.1, ha.1.2⟩, ?_⟩
        intro q hq
        rcases List.mem_append.mp hq with hq | hq
        · exact ha.2 q hq
        · rw [List.mem_singleton.mp hq]
          exact mkMaterialReq_flagOk env settings runs me mat
    refine ⟨hfold.1.1, ?_⟩
    intro s hs q hq
    rcases List.mem_cons.mp hs with hs | hs
    · rw [hs] at hq
      exact hfold.2 q hq
    · exact hfold.1.2 s hs q hq

/-- The recursive expansion preserves nonnegativity of the excess ledger. -/
theorem pbr_trackerNonneg (env : Env) (settings : IndustrySettings) (top : Nat)
    (prices : List (Nat × ℚ)) :
    ∀ (fuel : ℕ) (bp : BlueprintData) (runs : ℚ) (isTop : Bool) (me te : ℚ)
      (st : EngineState), TrackerNonneg st →
      TrackerNonneg (processBlueprintRecursive env settings top prices fuel bp runs
        isTop me te st) := by
  intro fuel
  induction fuel with
  | zero => intro bp runs isTop me te st hst; exact hst
  | succ n ih =>
    intro bp runs isTop me te st hst
    simp only [processBlueprintRecursive]
    have hfold : TrackerNonneg (bp.materials.foldl
        (fun a mat =>
          processMaterial env settings top
            (fun cbp componentRuns s =>
              processBlueprintRecursive env settings top prices n cbp componentRuns false
                settings.componentMe settings.componentTe s)
            runs me mat a)
        { st := st, stepMaterials := [] }).st := by
      refine foldl_preserve (fun a => TrackerNonneg a.st)
        (fun a mat =>
          processMaterial env settings top
            (fun cbp componentRuns s =>
              processBlueprintRecursive env settings top prices n cbp componentRuns false
                settings.componentMe settings.componentTe s)
            runs me mat a)
        bp.materials { st := st, stepMaterials := [] } ?_ hst
      intro a mat _ ha
      dsimp only
      rcases processMaterial_cases env settings top
          (fun cbp componentRuns s =>
            processBlueprintRecursive env settings top prices n cbp componentRuns false
              settings.componentMe settings.componentTe s)
          runs me mat a with h | ⟨tr, htr, h | ⟨cbp, cr, h⟩⟩
      · rcases h with ⟨adj, h⟩
        rw [h]
        show TrackerNonnegL (mergeRaw env a.st mat runs adj _).excessTracker
        rw [(mergeRaw_state env a.st mat runs adj _).2]
        exact ha
      · rw [h]
        exact htr ha
      · rw [h]
        exact ih cbp cr false settings.componentMe settings.componentTe _ (htr ha)
    exact hfold

theorem scaleStep_matFlagOk (env : Env) (n : ℚ) (s0 : BuildStep)
    (h : ∀ q ∈ s0.materials, ReqFlagOk env q) :
    ∀ q ∈ (scaleStep n s0).materials, ReqFlagOk env q := by
  intro q hq
  simp only [scaleStep] at hq
  rcases List.mem_map.mp hq with ⟨q0, hq0, hq⟩
  rw [← hq]
  exact h q0 hq0

/-- C10: the excess ledger never goes negative — consumption takes the
minimum of surplus and need, banking adds a positive difference — and every
entry of the returned `excessMaterials` array is strictly positive (a fully
consumed surplus is filtered out of the output). -/
theorem excessLedger_nonneg :
    (∀ (env : Env) (settings : IndustrySettings) (top : Nat) (prices : List (Nat × ℚ))
      (fuel : ℕ) (bp : BlueprintData) (runs : ℚ) (isTop : Bool) (me te : ℚ)
      (st : EngineState), TrackerNonneg st →
      TrackerNonneg (processBlueprintRecursive env settings top prices fuel bp runs
        isTop me te st)) ∧
    (∀ (env : Env) (fuel : ℕ) (id : Nat) (s : IndustrySettings) (p : List (Nat × ℚ))
      (r : CalculationResult), calculateRecursiveBuild env fuel id s p = some r →
      ∀ e ∈ r.excessMaterials, 0 < e.quantity) := by
  constructor
  · exact fun env settings top prices fuel => pbr_trackerNonneg env settings top prices fuel
  · intro env fuel id s p r hr e he
    cases hbp : getBlueprint env id with
    | none => simp [calculateRecursiveBuild, hbp] at hr
    | some bp =>
      simp only [calculateRecursiveBuild, hbp, Option.some.injEq] at hr
      rw [← hr] at he
      simp only at he
      rcases List.mem_map.mp he with ⟨pq, hpq, hpe⟩
      have hpos : 0 < pq.2 := of_decide_eq_true (List.mem_filter.mp hpq).2
      rw [← hpe]
      exact hpos

/-- Witness for `excessLedger_nonneg`: concrete preservation on the `env1`
run, plus strict positivity of its emitted excess entries. -/
theorem excessLedger_nonneg_witness :
    TrackerNonneg (processBlueprintRecursive env1 settings0 1 [] 2 bpT 1 true 0 0
      { rawMaterials := [], buildSteps := [], excessTracker := [] }) ∧
    ∀ e ∈ result1.excessMaterials, 0 < e.quantity :=
  ⟨excessLedger_nonneg.1 env1 settings0 1 [] 2 bpT 1 true 0 0 _
      (by intro p hp; simp at hp),
   excessLedger_nonneg.2 env1 2 104 settings0 [] result1 (run_env1 0)⟩

/-- C7 counterexample: on `env2` the reaction-produced material 21 has a
producing blueprint (`canBeBuilt` is true) and the engine chooses not to
recurse — it lands in `rawMaterials` and no build step produces it — yet its
`isRawMaterial` flag is `false`: the flag records `canBeBuilt`, not the
recursion decision. -/
theorem isRawMaterial_flag_cex :
    (calculateRecursiveBuild env2 2 204 settings0 []).map
        (fun r => r.rawMaterials.map (fun q => (q.typeId, q.isRawMaterial))) =
      some [(21, false)] ∧
    canBeBuilt env2 21 = true ∧
    (calculateRecursiveBuild env2 2 204 settings0 []).map
        (fun r => r.buildSteps.map (fun st => st.productTypeId)) = some [24] := by
  refine ⟨?_, ?_, ?_⟩
  · rw [show calculateRecursiveBuild env2 2 204 settings0 [] = some result2 from run_env2 1]
    simp [result2, req21M]
  · simp [canBeBuilt, env2, List.lookup]
  · rw [show calculateRecursiveBuild env2 2 204 settings0 [] = some result2 from run_env2 1]
    simp [result2, stepM1]

/-- Amended C7: `isRawMaterial` is a property of the type, not of the
engine's decision — every requirement anywhere in the output carries
exactly the negation of `canBeBuilt` for its type, including materials the
cross-activity boundary kept out of the recursion. -/
theorem isRawMaterial_flag_amended :
    ∀ (env : Env) (fuel : ℕ) (id : Nat) (s : IndustrySettings) (p : List (Nat × ℚ))
      (r : CalculationResult), calculateRecursiveBuild env fuel id s p = some r →
      (∀ q ∈ r.rawMaterials, q.isRawMaterial = !(canBeBuilt env q.typeId)) ∧
      (∀ step ∈ r.buildSteps, ∀ q ∈ step.materials,
        q.isRawMaterial = !(canBeBuilt env q.typeId)) := by
  intro env fuel id s p r hr
  cases hbp : getBlueprint env id with
  | none => simp [calculateRecursiveBuild, hbp] at hr
  | some bp =>
    simp only [calculateRecursiveBuild, hbp, Option.some.injEq] at hr
    have hst1 : StateFlagOk env (processBlueprintRecursive env s bp.activityId p fuel bp
        s.runs true s.blueprintMe s.blueprintTe
        { rawMaterials := [], buildSteps := [], excessTracker := [] }) := by
      apply pbr_flagOk
      constructor
      · intro q hq; simp at hq
      · intro q hq; simp at hq
    set st1 := processBlueprintRecursive env s bp.activityId p fuel bp s.runs true
      s.blueprintMe s.blueprintTe
      { rawMaterials := [], buildSteps := [], excessTracker := [] } with hst1d
    have hst2 : StateFlagOk env (if 1 < s.quantity then
        { rawMaterials := st1.rawMaterials.map (fun p => (p.1, scaleRequirement s.quantity p.2))
          buildSteps := (scaleFirstMatching bp.blueprintTypeId s.quantity st1.buildSteps).map
            (fun s2 => if s2.blueprintTypeId = bp.blueprintTypeId then s2
              else scaleStep s.quantity s2)
          excessTracker := st1.excessTracker.map (fun p => (p.1, p.2 * s.quantity)) }
      else st1) := by
      split
      · constructor
        · intro q hq
          rcases List.mem_map.mp hq with ⟨p0, hp0, hq⟩
          rw [← hq]
          show ReqFlagOk env (scaleRequirement s.quantity p0.2)
          have h0 := hst1.1 p0 hp0
          unfold ReqFlagOk at h0 ⊢
          rw [(scaleRequirement_fields s.quantity p0.2).1,
            (scaleRequirement_fields s.quantity p0.2).2]
          exact h0
        · intro step hstep q hq
          rcases List.mem_map.mp hstep with ⟨s1, hs1, hstep⟩
          rcases mem_scaleFirstMatching _ _ _ s1 hs1 with ⟨s0, hs0, hcase⟩
          have hmat0 : ∀ q ∈ s0.materials, ReqFlagOk env q := hst1.2 s0 hs0
          have hmat1 : ∀ q ∈ s1.materials, ReqFlagOk env q := by
            rcases hcase with h | h
            · rw [h]; exact hmat0
            · rw [h]; exact scaleStep_matFlagOk env _ s0 hmat0
          rw [← hstep] at hq
          by_cases hid : s1.blueprintTypeId = bp.blueprintTypeId
          · rw [if_pos hid] at hq
            exact hmat1 q hq
          · rw [if_neg hid] at hq
            exact scaleStep_matFlagOk env _ s1 hmat1 q hq
      · exact hst1
    constructor
    · intro q hq
      rw [← hr] at hq
      simp only at hq
      rcases List.mem_map.mp hq with ⟨p0, hp0, hq⟩
      rw [← hq]
      exact hst2.1 p0 hp0
    · intro step hstep q hq
      rw [← hr] at hstep
      simp only at hstep
      exact hst2.2 step hstep q hq

/-- Witness for `isRawMaterial_flag_amended` on the `env2` fixture. -/
theorem isRawMaterial_flag_amended_witness :
    (∀ q ∈ result2.rawMaterials, q.isRawMaterial = !(canBeBuilt env2 q.typeId)) ∧
    (∀ step ∈ result2.buildSteps, ∀ q ∈ step.materials,
      q.isRawMaterial = !(canBeBuilt env2 q.typeId)) :=
  isRawMaterial_flag_amended env2 2 204 settings0 [] result2 (run_env2 1)

/-- C4: a component blueprint is expanded only when its activity kind
matches the top-level target's; on a mismatch (Manufacturing target with a
Reaction-produced material, or the reverse) the material is merged into the
raw-material accumulator — which never touches the build-step list — and on
the `env2` fixture the reaction-produced material 21 indeed appears in
`rawMaterials` while the only build step produces the target itself. -/
theorem crossActivity_boundary :
    (∀ (env : Env) (settings : IndustrySettings) (top : Nat)
        (recurse : BlueprintData → ℚ → EngineState → EngineState)
        (runs me : ℚ) (mat : BlueprintMaterial) (acc : StepAcc) (cbp : BlueprintData),
      getBlueprintByProduct env mat.typeId = some cbp →
      ¬((top = ACTIVITY_REACTION ∧ cbp.activityId = ACTIVITY_REACTION) ∨
        (¬top = ACTIVITY_REACTION ∧ ¬cbp.activityId = ACTIVITY_REACTION)) →
      processMaterial env settings top recurse runs me mat acc =
        { st := mergeRaw env acc.st mat runs
            (calculateMaterialQuantity mat.quantity runs me settings.structureBonus.meBonus
              settings.rigBonus.meBonus settings.securityMultiplier)
            (mkMaterialReq env settings runs me mat)
          stepMaterials := acc.stepMaterials ++ [mkMaterialReq env settings runs me mat] }) ∧
    (∀ (env : Env) (st : EngineState) (mat : BlueprintMaterial) (runs adj : ℚ)
        (req : MaterialRequirement),
      (mergeRaw env st mat runs adj req).buildSteps = st.buildSteps ∧
      (mergeRaw env st mat runs adj req).excessTracker = st.excessTracker) ∧
    ((calculateRecursiveBuild env2 2 204 settings0 []).map
        (fun r => (r.rawMaterials.map (fun q => q.typeId),
          r.buildSteps.map (fun st => st.productTypeId))) = some ([21], [24])) := by
  refine ⟨?_, fun env st mat runs adj req => mergeRaw_state env st mat runs adj req, ?_⟩
  · intro env settings top recurse runs me mat acc cbp hbp hmis
    simp only [processMaterial, hbp, if_neg hmis]
  · rw [show calculateRecursiveBuild env2 2 204 settings0 [] = some result2 from run_env2 1]
    simp [result2, req21M, stepM1]

/-- Witness for `crossActivity_boundary` at the concrete mismatching step
of the `env2` fixture. -/
theorem crossActivity_boundary_witness :
    processMaterial env2 settings0 1 (fun _ _ st => st) 1 0 { typeId := 21, quantity := 5 }
        { st := { rawMaterials := [], buildSteps := [], excessTracker := [] }
          stepMaterials := [] } =
      { st := mergeRaw env2 { rawMaterials := [], buildSteps := [], excessTracker := [] }
          { typeId := 21, quantity := 5 } 1
          (calculateMaterialQuantity 5 1 0 settings0.structureBonus.meBonus
            settings0.rigBonus.meBonus settings0.securityMultiplier)
          (mkMaterialReq env2 settings0 1 0 { typeId := 21, quantity := 5 })
        stepMaterials := [mkMaterialReq env2 settings0 1 0 { typeId := 21, quantity := 5 }] } :=
  crossActivity_boundary.1 env2 settings0 1 (fun _ _ st => st) 1 0
    { typeId := 21, quantity := 5 }
    { st := { rawMaterials := [], buildSteps := [], excessTracker := [] }
      stepMaterials := [] } bpR
    (by simp [getBlueprintByProduct, getBlueprint, env2, List.lookup])
    (by simp [ACTIVITY_REACTION, bpR])

/-- C1: a recursion-eligible demand first consumes the banked surplus for
its type — reducing both the ledger entry and the needed amount — and only a
remaining positive need triggers `ceil(needed / producedQuantity)` component
runs whose over-production is banked back into the same entry; when the
bank covers the whole demand the engine adds no build step, no raw
material and performs no recursion.  On the `env1` fixture the branch that
banks 3 surplus B satisfies the later demand of 2 entirely from the bank:
exactly one B build step of one run exists and one unit of excess remains. -/
theorem excessLedger_reuse :
    (∀ (env : Env) (settings : IndustrySettings) (top : Nat)
        (recurse : BlueprintData → ℚ → EngineState → EngineState)
        (runs me : ℚ) (mat : BlueprintMaterial) (acc : StepAcc) (cbp : BlueprintData)
        (adj sb : ℚ),
      getBlueprintByProduct env mat.typeId = some cbp →
      ((top = ACTIVITY_REACTION ∧ cbp.activityId = ACTIVITY_REACTION) ∨
        (¬top = ACTIVITY_REACTION ∧ ¬cbp.activityId = ACTIVITY_REACTION)) →
      adj = calculateMaterialQuantity mat.quantity runs me settings.structureBonus.meBonus
        settings.rigBonus.meBonus settings.securityMultiplier →
      sb = getEntry acc.st.excessTracker mat.typeId →
      0 < sb →
      ((adj ≤ sb →
        processMaterial env settings top recurse runs me mat acc =
          { st := { acc.st with
              excessTracker := updateMap mat.typeId (sb - adj) acc.st.excessTracker }
            stepMaterials := acc.stepMaterials ++ [mkMaterialReq env settings runs me mat] }) ∧
       (sb < adj → 0 < cbp.producedQuantity →
        ∃ tr,
          processMaterial env settings top recurse runs me mat acc =
            { st := recurse cbp ((⌈(adj - sb) / cbp.producedQuantity⌉ : ℤ) : ℚ)
                { acc.st with excessTracker := tr }
              stepMaterials := acc.stepMaterials ++ [mkMaterialReq env settings runs me mat] } ∧
          getEntry tr mat.typeId =
            ((⌈(adj - sb) / cbp.producedQuantity⌉ : ℤ) : ℚ) * cbp.producedQuantity -
              (adj - sb) ∧
          ∀ k, k ≠ mat.typeId → getEntry tr k = getEntry acc.st.excessTracker k))) ∧
    ((calculateRecursiveBuild env1 2 104 settings0 []).map
        (fun r => ((r.buildSteps.filter (fun st => st.blueprintTypeId = 102)).map
            (fun st => st.runs),
          r.excessMaterials.map (fun e => (e.typeId, e.quantity)))) =
      some ([1], [(2, 1)])) := by
  constructor
  · intro env settings top recurse runs me mat acc cbp adj sb hbp hc hadj hsb hpos
    constructor
    · intro hle
      have hmin : min sb adj = adj := min_eq_right hle
      simp only [processMaterial, hbp, hc, if_true, hpos, hmin, sub_self,
        lt_self_iff_false, if_false, ← hadj, ← hsb]
    · intro hlt hpq
      have hminl : min sb adj = sb := min_eq_left hlt.le
      have hneed : 0 < adj - sb := by linarith
      have hne_nonneg : 0 ≤ ((⌈(adj - sb) / cbp.producedQuantity⌉ : ℤ) : ℚ) *
          cbp.producedQuantity - (adj - sb) := by
        have h1 : (adj - sb) / cbp.producedQuantity ≤
            ((⌈(adj - sb) / cbp.producedQuantity⌉ : ℤ) : ℚ) := Int.le_ceil _
        have h2 : adj - sb ≤ ((⌈(adj - sb) / cbp.producedQuantity⌉ : ℤ) : ℚ) *
            cbp.producedQuantity := by
          rw [← div_le_iff₀ hpq]
          exact h1
        linarith
      refine ⟨if 0 < ((⌈(adj - sb) / cbp.producedQuantity⌉ : ℤ) : ℚ) *
            cbp.producedQuantity - (adj - sb) then
          updateMap mat.typeId
            (getEntry (updateMap mat.typeId (sb - sb) acc.st.excessTracker) mat.typeId +
              (((⌈(adj - sb) / cbp.producedQuantity⌉ : ℤ) : ℚ) * cbp.producedQuantity -
                (adj - sb)))
            (updateMap mat.typeId (sb - sb) acc.st.excessTracker)
        else updateMap mat.typeId (sb - sb) acc.st.excessTracker, ?_, ?_, ?_⟩
      · simp only [processMaterial, hbp, hc, if_true, hpos, hminl, hneed, ← hadj, ← hsb]
      · split
        · rw [getEntry_updateMap_self, getEntry_updateMap_self]
          ring
        · rename_i hneg
          rw [getEntry_updateMap_self]
          have h0 : ((⌈(adj - sb) / cbp.producedQuantity⌉ : ℤ) : ℚ) * cbp.producedQuantity -
              (adj - sb) = 0 := le_antisymm (not_lt.mp hneg) hne_nonneg
          linarith
      · intro k hk
        split
        · rw [getEntry_updateMap_ne _ _ _ _ hk, getEntry_updateMap_ne _ _ _ _ hk]
        · rw [getEntry_updateMap_ne _ _ _ _ hk]
  · rw [show calculateRecursiveBuild env1 2 104 settings0 [] = some result1 from run_env1 0]
    simp [result1, stepT1, stepC1, stepB1]

/-- Witness for `excessLedger_reuse`: the second demand of 2 B with 3 banked
is satisfied from the bank, leaving 1, adding nothing else. -/
theorem excessLedger_reuse_witness :
    processMaterial env1 settings0 1 (fun _ _ st => st) 1 0 { typeId := 2, quantity := 2 }
        { st := { rawMaterials := [], buildSteps := [], excessTracker := [(2, 3)] }
          stepMaterials := [] } =
      { st := { rawMaterials := [], buildSteps := [], excessTracker := updateMap 2 (3 - 2) [(2, 3)] }
        stepMaterials := [mkMaterialReq env1 settings0 1 0 { typeId := 2, quantity := 2 }] } :=
  ((excessLedger_reuse.1 env1 settings0 1 (fun _ _ st => st) 1 0
      { typeId := 2, quantity := 2 }
      { st := { rawMaterials := [], buildSteps := [], excessTracker := [(2, 3)] }
        stepMaterials := [] } bpB 2 3
      (by simp [getBlueprintByProduct, getBlueprint, env1, List.lookup])
      (by simp [ACTIVITY_REACTION, bpB])
      (by
        show (2:ℚ) = calculateMaterialQuantity 2 1 0 0 0 1
        rw [calculateMaterialQuantity_eval 2 1 0 0 0 1 200 2 (by norm_num) (by norm_num)
          (by norm_num) (by norm_num)]
        norm_num)
      (by simp [getEntry, List.lookup])
      (by norm_num)).1 (by norm_num))

/-- C3: the recursion computes one BPC run-set (it never reads the batch
count) and the batch post-pass then scales the outputs; hence for every
N ≥ 1 and otherwise identical settings the raw-material list of a run with
N batches is exactly the one-batch list scaled by N, and the excess entries
carry exactly N times the one-batch quantities. -/
theorem batchScaling_linear :
    ∀ (env : Env) (fuel : ℕ) (id : Nat) (s : IndustrySettings) (p : List (Nat × ℚ))
      (N : ℚ) (r1 rN : CalculationResult),
      s.quantity = 1 → 1 ≤ N →
      calculateRecursiveBuild env fuel id s p = some r1 →
      calculateRecursiveBuild env fuel id { s with quantity := N } p = some rN →
      rN.rawMaterials = r1.rawMaterials.map (scaleRequirement N) ∧
      rN.excessMaterials.map (fun e => (e.typeId, e.quantity)) =
        r1.excessMaterials.map (fun e => (e.typeId, e.quantity * N)) := by
  intro env fuel id s p N r1 rN hq1 hN h1 hNrun
  cases hbp : getBlueprint env id with
  | none => simp [calculateRecursiveBuild, hbp] at h1
  | some bp =>
    simp only [calculateRecursiveBuild, hbp, Option.some.injEq] at h1 hNrun
    have hirr := pbr_quantity_irrel env p bp.activityId s N s.quantity fuel bp s.runs true
      s.blueprintMe s.blueprintTe
      { rawMaterials := [], buildSteps := [], excessTracker := [] }
    have heta : ({ s with quantity := s.quantity } : IndustrySettings) = s := rfl
    rw [heta] at hirr
    rw [hq1] at h1
    rw [if_neg (by norm_num : ¬(1:ℚ) < 1)] at h1
    rw [hirr] at hNrun
    rcases lt_or_eq_of_le hN with hlt | heq
    · rw [if_pos hlt] at hNrun
      rw [← h1, ← hNrun]
      constructor
      · simp only [List.map_map]
        rfl
      · simp only [List.map_map]
        rw [List.filter_map]
        have hfc : (processBlueprintRecursive env s bp.activityId p fuel bp s.runs true
              s.blueprintMe s.blueprintTe
              { rawMaterials := [], buildSteps := [], excessTracker := [] }).excessTracker.filter
              ((fun p => decide (0 < p.2)) ∘ fun p => (p.1, p.2 * N)) =
            (processBlueprintRecursive env s bp.activityId p fuel bp s.runs true
              s.blueprintMe s.blueprintTe
              { rawMaterials := [], buildSteps := [], excessTracker := [] }).excessTracker.filter
              (fun p => decide (0 < p.2)) := by
          apply List.filter_congr
          intro x _
          simp only [Function.comp]
          rw [decide_eq_decide]
          have hNpos : (0:ℚ) < N := by linarith
          constructor
          · intro h
            nlinarith
          · intro h
            exact mul_pos h hNpos
        rw [hfc]
        simp only [List.map_map]
        rfl
    · rw [← heq] at hNrun
      rw [if_neg (by norm_num : ¬(1:ℚ) < 1)] at hNrun
      rw [← h1, ← hNrun]
      constructor
      · have hone : scaleRequirement N = fun q => q := by
          funext q
          rw [← heq]
          exact scaleRequirement_one q
        rw [hone]
        simp
      · simp [← heq]

/-- Witness for `batchScaling_linear`: three BPCs on the `env1` fixture
give exactly the scaled raw materials and three times the excess. -/
theorem batchScaling_linear_witness :
    result1q3.rawMaterials = result1.rawMaterials.map (scaleRequirement 3) ∧
    result1q3.excessMaterials.map (fun e => (e.typeId, e.quantity)) =
      result1.excessMaterials.map (fun e => (e.typeId, e.quantity * 3)) :=
  batchScaling_linear env1 2 104 settings0 [] 3 result1 result1q3 rfl (by norm_num)
    (run_env1 0) (run_env1_q3 0)

end EveTracker
